import Mathlib

/-
  Verification development for the tinysteps dialogue orchestration engine
  (src/app.js, current version after line 3032, together with the active
  FRANK_CONFIG of src/unnamed/part_001).  The JavaScript is embedded
  shallowly: strings stay strings, keyword lists stay lists, mutation of
  the helper object's fields becomes explicit state passing.
-/

set_option maxRecDepth 10000
set_option maxHeartbeats 1600000

namespace TinySteps

/-! ## JavaScript string primitives

All operations work on the character list `String.data`, which the kernel
evaluates on literals; inputs are ASCII, as are the source's keyword
lists. -/

/-- Whether `needle` is a leading segment of `hay` (character-wise). -/
def hasLead : List Char → List Char → Bool
  | [], _ => true
  | _ :: _, [] => false
  | a :: as, b :: bs => a == b && hasLead as bs

/-- JS `hay.includes(needle)` on character lists. -/
def hasSubChars (needle : List Char) : List Char → Bool
  | [] => needle.isEmpty
  | c :: rest => hasLead needle (c :: rest) || hasSubChars needle rest

/-- JS `hay.includes(needle)`. -/
def includes (hay needle : String) : Bool :=
  hasSubChars needle.data hay.data

/-- JS `list.some(m => hay.includes(m))`. -/
def anyIncludes (hay : String) (needles : List String) : Bool :=
  needles.any (fun n => includes hay n)

/-- JS `s.toLowerCase()` (ASCII). -/
def jsLower (s : String) : String := ⟨s.data.map Char.toLower⟩

/-- JS `s === ''` / falsiness of a string. -/
def strEmpty (s : String) : Bool := s.data.isEmpty

/-- JS `s.length` (character count; inputs are ASCII). -/
def strLen (s : String) : Nat := s.data.length

/-- Leading and trailing whitespace removed. -/
def trimChars (l : List Char) : List Char :=
  ((l.dropWhile Char.isWhitespace).reverse.dropWhile Char.isWhitespace).reverse

/-- JS `s.trim()`. -/
def jsTrim (s : String) : String := ⟨trimChars s.data⟩

/-- Anchored case-sensitive prefix test, for regexes of the shape `/^.../`
    applied to already-lowercased text. -/
def leadsWith (s pre : String) : Bool := hasLead pre.data s.data

/-- JS `/^(a|b|...)/i.test(s)`: some alternative is a prefix, ignoring case. -/
def anyLeadsCI (s : String) (pres : List String) : Bool :=
  pres.any (fun p => leadsWith (jsLower s) p)

/-- JS `/\?$/.test(s)`. -/
def endsWithQM (s : String) : Bool :=
  match s.data.getLast? with
  | some c => c == '?'
  | none => false

/-- JS `s.split(' ').length`: one more than the number of space characters
    (consecutive separators produce empty fragments, which JS keeps). -/
def spaceSplitCount (s : String) : Nat := s.data.count ' ' + 1

/-- Maximal runs of non-whitespace characters; the flag records being
    inside a run. -/
def runsCountAux : Bool → List Char → Nat
  | _, [] => 0
  | inTok, c :: rest =>
    if c.isWhitespace then runsCountAux false rest
    else (if inTok then 0 else 1) + runsCountAux true rest

/-- JS `s.split(/\s+/).length` for a string with no leading whitespace
    (the source always trims first); the empty string yields 1 as in JS. -/
def wsTokenCount (s : String) : Nat :=
  if s.data.isEmpty then 1 else runsCountAux false s.data

/-- JS truthiness of a nullable string: `null`, `undefined` and `""` are falsy. -/
def jsTruthy : Option String → Bool
  | none => false
  | some s => !strEmpty s

/-- JS `a || b` on strings. -/
def jsOrStr (a b : String) : String := if strEmpty a then b else a

/-! ## Regex patterns used by the config

All classification regexes in the source are either a case-insensitive
literal (`/because/i`) or a literal head followed by one alternation
(`/help me (write|do|complete|finish)/i`), both unanchored. -/

inductive JsPattern where
  | lit (s : String)
  | headAlt (head : String) (alts : List String)
deriving Repr, DecidableEq

/-- JS `pattern.test(input)` for the two pattern shapes above. -/
def JsPattern.test (p : JsPattern) (input : String) : Bool :=
  match p with
  | .lit s => includes (jsLower input) s
  | .headAlt head alts => alts.any (fun a => includes (jsLower input) (head ++ a))

/-! ## RuleConfig (FRANK_CONFIG)

Fields the orchestration engine reads, with `Option` marking parts that a
degraded config may lack (the JS guards each access with truthiness
checks).  Nested `{enabled: true, ...}` principle objects whose only
consulted field is `enabled` are modelled as a `Bool` meaning
present-and-enabled. -/

structure IntensityAsInformation where
  lossOfFunctionSignals : Option (List String) := none
  intensityOnlySignals : Option (List String) := none
deriving Repr, DecidableEq

structure DobrowskiPrinciples where
  enabled : Bool := false
  intensityAsInformation : Option IntensityAsInformation := none
  normalizeConflict : Bool := false
  validateWithoutGlorifying : Bool := false
  meaningMakingOptIn : Bool := false
deriving Repr, DecidableEq

structure CertaintyHandling where
  lowCertaintyMarkers : Option (List String) := none
  highCertaintyMarkers : Option (List String) := none
deriving Repr, DecidableEq

structure ReasoningConfig where
  certaintyHandling : Option CertaintyHandling := none
  dobrowskiPrinciples : Option DobrowskiPrinciples := none
deriving Repr, DecidableEq

structure InputClassification where
  overwhelmSignals : Option (List String) := none
  shrinkSignals : Option (List String) := none
  explanatoryPatterns : Option (List JsPattern) := none
  emotionalKeywords : Option (List String) := none
  assignmentKeywords : Option (List String) := none
  directRequestPatterns : Option (List JsPattern) := none
deriving Repr, DecidableEq

structure FrankConfig where
  reasoning : Option ReasoningConfig := none
  inputClassification : Option InputClassification := none
deriving Repr, DecidableEq

/-- JS `list && list.some(m => hay.includes(m))` for an optional list. -/
def optAny (o : Option (List String)) (hay : String) : Bool :=
  match o with
  | none => false
  | some ms => anyIncludes hay ms

/-- JS `pats && pats.some(p => p.test(input))` for an optional pattern list. -/
def optAnyPat (o : Option (List JsPattern)) (input : String) : Bool :=
  match o with
  | none => false
  | some ps => ps.any (fun p => p.test input)

/-- The guarded access `FRANK_CONFIG.reasoning && FRANK_CONFIG.reasoning.dobrowskiPrinciples
    && FRANK_CONFIG.reasoning.dobrowskiPrinciples.enabled ? ...dobrowskiPrinciples : null`. -/
def dobrowskiPr (cfg : Option FrankConfig) : Option DobrowskiPrinciples :=
  match cfg with
  | none => none
  | some c =>
    match c.reasoning with
    | none => none
    | some r =>
      match r.dobrowskiPrinciples with
      | none => none
      | some dp => if dp.enabled then some dp else none

/-- The guarded access ending in `.intensityAsInformation` (classifyInput,
    handleIntensityAsInformation). -/
def dobrowskiIAI (cfg : Option FrankConfig) : Option IntensityAsInformation :=
  match dobrowskiPr cfg with
  | none => none
  | some dp => dp.intensityAsInformation

/-- `reasoning.certaintyHandling.lowCertaintyMarkers` of the active config. -/
def lowCertaintyMarkers : List String :=
  ["i think", "maybe", "perhaps", "might", "could be", "it feels like",
   "it seems like", "i'm not sure", "im not sure", "i guess", "i suppose",
   "sort of", "kind of", "a little", "a bit", "somewhat", "possibly",
   "i wonder", "not really sure", "not sure", "unsure", "uncertain"]

/-- `reasoning.certaintyHandling.highCertaintyMarkers` of the active config. -/
def highCertaintyMarkers : List String :=
  ["i hate", "i love", "this is", "that is", "it is", "always", "never",
   "impossible", "can't", "cannot", "won't", "will not", "definitely",
   "absolutely", "completely", "totally", "pointless", "useless", "waste",
   "i can't", "i cannot", "i give up", "i'm done", "im done"]

/-- `intensityAsInformation.lossOfFunctionSignals` of the active config
    (src/unnamed/part_001 lines 356-360). -/
def lossOfFunctionSignals : List String :=
  ["i can't think", "can't process", "brain won't work", "mind is blank",
   "can't focus", "can't function", "shut down", "frozen", "paralyzed",
   "completely stuck", "nothing works", "can't do anything"]

/-- `intensityAsInformation.intensityOnlySignals` of the active config. -/
def intensityOnlySignals : List String :=
  ["unbearable", "too much", "overwhelming", "intense", "extreme",
   "can't stand", "hate this", "terrible", "awful", "worst"]

/-- `inputClassification.overwhelmSignals` of the active config (the legacy
    fallback overwhelm vocabulary). -/
def overwhelmSignals : List String :=
  ["i can't", "i cannot", "too much", "too hard", "i give up",
   "this is too much", "can't do this", "cannot do this",
   "shutdown", "shut down", "freeze", "frozen", "stuck", "trapped",
   "i'm done", "im done", "can't handle", "cannot handle"]

/-- The active FRANK_CONFIG: src/unnamed/part_001 (second document,
    version 2.0.0 with dobrowskiPrinciples); its certainty-marker and
    input-classification lists coincide with src/config.js. -/
def frankConfig : FrankConfig where
  reasoning := some
    { certaintyHandling := some
        { lowCertaintyMarkers := some lowCertaintyMarkers
          highCertaintyMarkers := some highCertaintyMarkers }
      dobrowskiPrinciples := some
        { enabled := true
          intensityAsInformation := some
            { lossOfFunctionSignals := some lossOfFunctionSignals
              intensityOnlySignals := some intensityOnlySignals }
          normalizeConflict := true
          validateWithoutGlorifying := true
          meaningMakingOptIn := true } }
  inputClassification := some
    { overwhelmSignals := some overwhelmSignals
      shrinkSignals := some
        ["make it smaller", "break it down", "too big", "too large",
         "smaller steps", "tiny step", "one step", "simpler"]
      explanatoryPatterns := some
        [.lit "it doesn't feel", .lit "it doesnt feel", .lit "it doesn't seem",
         .lit "it doesnt seem", .lit "because", .lit "the problem is",
         .lit "what's wrong is", .lit "whats wrong is", .lit "doesn't connect",
         .lit "doesnt connect", .lit "not relevant", .lit "irrelevant"]
      emotionalKeywords := some
        ["hate", "love", "feel", "feeling", "frustrated", "anxious", "stressed",
         "overwhelmed", "stuck", "difficult", "hard", "sucks", "boring", "pointless",
         "useless", "waste of time", "don't care", "dont care",
         "impossible", "too much", "too hard"]
      assignmentKeywords := some
        ["assignment", "essay", "paper", "write a", "write an", "read the",
         "read a", "read an", "book report", "compare", "contrast", "analyze",
         "research paper", "research project", "homework assignment", "due date",
         "how do i", "how to", "what should i", "help me", "show me", "explain",
         "break down", "steps", "guide", "walk me through"]
      directRequestPatterns := some
        [.headAlt "help me " ["write", "do", "complete", "finish"],
         .lit "how do i", .lit "how to", .lit "show me", .lit "break down",
         .lit "steps", .lit "guide"] }

/-! ## Data model

Mode strings are the built-in MODES table of app.js (the literal at
lines 3039-3049): listening, clarifying, offering_direction, calming,
stepping, with the legacy aliases SHRINKING = offering_direction and
PAUSED = calming.

`conversationContext` is kept newest-first, so the JS access
`ctx[ctx.length - 1]` is `head?`.  Fields a turn object may lack
(`hadQuestion`, `lastQuestion`, `selectedDirection`, `userSelectedPause`)
default to their JS-falsy value. -/

structure Turn where
  input : String
  signal : String
  certaintyLevel : String
  hadQuestion : Bool := false
  lastQuestion : Option String := none
  selectedDirection : Option String := none
  userSelectedPause : Bool := false
deriving Repr, DecidableEq

structure ConvState where
  conversationMode : Option String := none
  conversationContext : List Turn := []
  lastUserInput : Option String := none
  currentAssignment : Option String := none
deriving Repr, DecidableEq

structure Signal where
  type : String
  input : String
  certaintyLevel : String
  hasLossOfFunction : Option Bool := none
deriving Repr, DecidableEq

structure Step where
  title : String
  description : String
  needsInput : Bool := false
  inputPrompt : Option String := none
  inputPlaceholder : Option String := none
  checklist : List String := []
  analogy : Option String := none
deriving Repr, DecidableEq

structure HowToStart where
  title : String
  content : String
deriving Repr, DecidableEq

structure Breakdown where
  btype : String
  personaMessage : String
  howToStart : HowToStart
  steps : List Step
deriving Repr, DecidableEq

/-- A Response's `message` is a plain string on every branch except
    Stepping, where `presentNextTinyStep` returns a step card. -/
inductive Msg where
  | text (s : String)
  | card (title description : String) (needsInput : Bool)
      (inputPrompt inputPlaceholder : Option String)
deriving Repr, DecidableEq

structure Response where
  mode : String
  message : Msg
  question : Option String := none
  actions : List String := []
deriving Repr, DecidableEq

/-! ## InputClassifier -/

/-- app.js `detectCertaintyLevel` (lines 3081-3107): high-certainty markers
    checked before low-certainty ones; missing config or empty input gives
    medium. -/
def detectCertaintyLevel (cfg : Option FrankConfig) (userInput : String) : String :=
  if strEmpty userInput then "medium"
  else
    match cfg with
    | none => "medium"
    | some c =>
      match c.reasoning with
      | none => "medium"
      | some r =>
        match r.certaintyHandling with
        | none => "medium"
        | some ch =>
          let lowerInput := jsLower userInput
          if optAny ch.highCertaintyMarkers lowerInput then "high"
          else if optAny ch.lowCertaintyMarkers lowerInput then "low"
          else "medium"

/-- app.js `classifyInput` (lines 3111-3199): the ordered keyword cascade.
    Reads `conversationMode` from the session state. -/
def classifyInput (cfg : Option FrankConfig) (st : ConvState) (userInput : String) :
    Signal :=
  let lowerInput := jsLower userInput
  match (match cfg with | none => none | some c => c.inputClassification) with
  | none =>
    if spaceSplitCount userInput < 10 then
      { type := "emotional", input := userInput, certaintyLevel := "medium" }
    else
      { type := "ready_for_action", input := userInput, certaintyLevel := "medium" }
  | some cc =>
    let certaintyLevel := detectCertaintyLevel cfg userInput
    let dIAI := dobrowskiIAI cfg
    if (match dIAI with
        | some d => optAny d.lossOfFunctionSignals lowerInput
        | none => false) then
      { type := "overwhelmed", input := userInput, certaintyLevel := certaintyLevel,
        hasLossOfFunction := some true }
    else if (match dIAI with
        | some d => optAny d.intensityOnlySignals lowerInput
        | none => false) then
      { type := "intense_emotion", input := userInput, certaintyLevel := certaintyLevel,
        hasLossOfFunction := some false }
    else if optAny cc.overwhelmSignals lowerInput then
      { type := "overwhelmed", input := userInput, certaintyLevel := certaintyLevel,
        hasLossOfFunction := some false }
    else if optAny cc.shrinkSignals lowerInput then
      { type := "request_to_shrink", input := userInput, certaintyLevel := certaintyLevel }
    else if st.conversationMode == some "clarifying" && !(strEmpty (jsTrim userInput)) then
      { type := "ready_for_action", input := userInput, certaintyLevel := certaintyLevel }
    else if !(st.conversationMode == some "clarifying")
        && optAnyPat cc.explanatoryPatterns userInput then
      { type := "explanatory", input := userInput, certaintyLevel := certaintyLevel }
    else if optAny cc.emotionalKeywords lowerInput then
      { type := "emotional", input := userInput, certaintyLevel := certaintyLevel }
    else if optAny cc.assignmentKeywords lowerInput then
      { type := "ready_for_action", input := userInput, certaintyLevel := certaintyLevel }
    else if spaceSplitCount userInput < 10 then
      { type := "emotional", input := userInput, certaintyLevel := certaintyLevel }
    else
      { type := "ready_for_action", input := userInput, certaintyLevel := certaintyLevel }

/-- app.js `detectsOverwhelmSignal` (lines 3208-3248): hardcoded guardrail
    lists; informational inputs suppress calming unless an explicit
    overwhelm signal is also present. -/
def detectsOverwhelmSignal (input : String) : Bool :=
  if strEmpty input then false
  else
    let lowerInput := jsLower input
    let informationalPatterns :=
      ["irrelevant", "pointless", "doesn't matter", "doesnt matter", "don't care",
       "dont care", "boring", "useless", "waste", "not important", "not relevant",
       "doesn't make sense", "doesnt make sense", "no point", "why do i need",
       "why do we need"]
    let isInformational := anyIncludes lowerInput informationalPatterns
    let explicitOverwhelmSignals :=
      ["too much", "can't", "cannot", "overwhelmed", "stressed", "anxious",
       "panic", "shut down", "frozen", "paralyzed", "can't think", "can't process",
       "brain won't work", "mind is blank", "can't focus", "can't function",
       "completely stuck", "nothing works", "can't do anything", "i give up",
       "i'm done", "im done", "i can't do this", "i cannot do this"]
    if isInformational && !(anyIncludes lowerInput explicitOverwhelmSignals) then
      false
    else
      anyIncludes lowerInput
        ["i can't", "i cannot", "too much", "too hard", "i give up",
         "this is too much", "can't do this", "cannot do this",
         "shutdown", "shut down", "freeze", "frozen", "stuck", "trapped",
         "i'm done", "im done", "can't handle", "cannot handle"]

/-! ## Mirror / question composition helpers -/

/-- app.js `mirrorEmotion` (lines 3538-3625).  In the source each Dobrowski
    principle's guard nests a text test around a config test; a failed
    config test falls through to the later keyword mirrors. -/
def mirrorEmotion (cfg : Option FrankConfig) (userInput certaintyLevel : String) :
    String :=
  let lowerInput := jsLower userInput
  let dob := dobrowskiPr cfg
  let isLowCertainty := certaintyLevel == "low"
  if (includes lowerInput "don't know why" || includes lowerInput "dont know why" ||
      includes lowerInput "bother" || includes lowerInput "bothers me")
      && (match dob with | some d => d.normalizeConflict | none => false) then
    "If it's bothering you this much, it probably matters to you."
  else if (includes lowerInput "worse" || includes lowerInput "feeling worse" ||
      includes lowerInput "used to" || includes lowerInput "before")
      && (match dob with | some d => d.validateWithoutGlorifying | none => false) then
    "Sometimes feeling worse happens when you're noticing more, not because you're failing."
  else if (includes lowerInput "point" || includes lowerInput "purpose" ||
      includes lowerInput "doesn't matter" || includes lowerInput "doesnt matter")
      && (match dob with | some d => d.meaningMakingOptIn | none => false) then
    "That question makes sense."
  else if includes lowerInput "hate" then
    if isLowCertainty then "It sounds like this might feel really hard."
    else "That sounds really hard."
  else if includes lowerInput "doesn't feel relevant"
      || includes lowerInput "doesnt feel relevant" then
    if isLowCertainty then
      "If something feels like it might not be relevant, that can make it harder to care."
    else "If something feels pointless, it's way harder to care."
  else if includes lowerInput "boring" || includes lowerInput "pointless" then
    if isLowCertainty then
      "When something doesn't feel meaningful, it can be hard to engage with it."
    else "When something doesn't feel meaningful, it's hard to engage with it."
  else if includes lowerInput "difficult" || includes lowerInput "hard" then
    if isLowCertainty then "This might feel like a lot right now."
    else "This feels like a lot right now."
  else if includes lowerInput "overwhelmed" || includes lowerInput "too much" then
    "This looks like a lot."
  else
    "I hear you."

/-- app.js `askOneClarifyingQuestion` (lines 3627-3686). -/
def askOneClarifyingQuestion (userInput certaintyLevel : String) : String :=
  let lowerInput := jsLower userInput
  let isLowCertainty := certaintyLevel == "low"
  if includes lowerInput "hate" then
    if isLowCertainty then "What about it might feel the worst right now?"
    else "What about it feels the worst right now?"
  else if includes lowerInput "doesn't feel relevant"
      || includes lowerInput "doesnt feel relevant" then
    if isLowCertainty then
      "Could it be that it doesn't connect to your life, or maybe you don't see why you're being asked to do it?"
    else
      "Is the problem more that it doesn't connect to your life, or you don't see why you're being asked to do it?"
  else if includes lowerInput "boring" || includes lowerInput "pointless" then
    if isLowCertainty then "What might be missing that would make it feel more meaningful?"
    else "What's missing that would make it feel meaningful?"
  else if includes lowerInput "difficult" || includes lowerInput "hard" then
    if isLowCertainty then "What part might feel the hardest?"
    else "What part feels the hardest?"
  else if includes lowerInput "overwhelmed" || includes lowerInput "too much" then
    "What feels like too much?"
  else if isLowCertainty then "What might be bothering you about this?"
  else "What's bothering you about this?"

/-- app.js `reflectMeaning` (lines 3688-3724). -/
def reflectMeaning (userInput certaintyLevel : String) : String :=
  let lowerInput := jsLower userInput
  let isLowCertainty := certaintyLevel == "low"
  if includes lowerInput "doesn't feel relevant"
      || includes lowerInput "doesnt feel relevant" then
    if isLowCertainty then
      "If something feels like it might not be relevant, that can make it harder to care."
    else "If something feels pointless, it's way harder to care."
  else if includes lowerInput "doesn't connect" || includes lowerInput "doesnt connect" then
    if isLowCertainty then
      "When something doesn't seem to connect to your life, it can be hard to see why it matters."
    else "When something doesn't connect to your life, it's hard to see why it matters."
  else if includes lowerInput "because" then
    "I hear what you're saying."
  else
    "That makes sense."

/-- app.js `narrowChoices` (lines 3726-3758). -/
def narrowChoices (userInput certaintyLevel : String) : String :=
  let lowerInput := jsLower userInput
  let isLowCertainty := certaintyLevel == "low"
  if includes lowerInput "doesn't feel relevant" || includes lowerInput "doesnt feel relevant"
      || includes lowerInput "doesn't connect" || includes lowerInput "doesnt connect" then
    if isLowCertainty then
      "Could it be that it doesn't connect to your life, or maybe you don't see why you're being asked to do it?"
    else
      "Is the problem more that it doesn't connect to your life, or you don't see why you're being asked to do it?"
  else if includes lowerInput "boring" || includes lowerInput "pointless" then
    if isLowCertainty then "What might need to change for it to feel more engaging?"
    else "What would need to change for it to feel more engaging?"
  else
    "Tell me more about that."

/-- app.js `gentleReassurance` (lines 3760-3767). -/
def gentleReassurance : String := "You can pause whenever you want."

/-- app.js `handleIntensityAsInformation` (lines 3769-3793); the fetched
    Dobrowski config is never consulted by its branches. -/
def handleIntensityAsInformation (userInput : String) : String :=
  let lowerInput := jsLower userInput
  if includes lowerInput "unbearable" || includes lowerInput "too much" ||
      includes lowerInput "overwhelming" || includes lowerInput "intense" then
    "When something feels unbearable, it's often because it's colliding with something important."
  else if includes lowerInput "bother" || includes lowerInput "bothers me" then
    "If it's bothering you this much, it probably matters to you."
  else
    "This feels really intense right now."

/-- app.js `askFunctionCheckQuestion` (lines 3795-3799). -/
def askFunctionCheckQuestion : String :=
  "Are you still able to think, or do you want to slow things down?"

/-- app.js `isDirectAssignmentRequest` (lines 3510-3531); the hardcoded
    fallback patterns equal the config's list. -/
def isDirectAssignmentRequest (cfg : Option FrankConfig) (input : String) : Bool :=
  let fallbackPatterns : List JsPattern :=
    [.headAlt "help me " ["write", "do", "complete", "finish"],
     .lit "how do i", .lit "how to", .lit "show me", .lit "break down",
     .lit "steps", .lit "guide"]
  match (match cfg with | none => none | some c => c.inputClassification) with
  | none => fallbackPatterns.any (fun p => p.test input)
  | some cc =>
    match cc.directRequestPatterns with
    | none => fallbackPatterns.any (fun p => p.test input)
    | some ps => ps.any (fun p => p.test input)

/-! ## SemanticAnswerDetector -/

/-- app.js `isShortOrDeclarative` (lines 3859-3896). -/
def isShortOrDeclarative (userInput : String) : Bool :=
  let trimmed := jsTrim userInput
  let wordCount := wsTokenCount trimmed
  if wordCount ≤ 10 then true
  else if (["it", "this", "that", "i", "we", "they"].any (fun a =>
      ["is", "feels", "seems", "doesn't", "doesnt", "can't", "cannot"].any (fun b =>
        leadsWith (jsLower trimmed) (a ++ " " ++ b))))
    || anyLeadsCI trimmed ["because", "since", "when", "if"]
    || anyLeadsCI trimmed ["i don't", "i dont", "i can't", "i cannot", "i'm", "im"]
    || anyLeadsCI trimmed ["seems", "feels", "looks", "sounds"] then true
  else if endsWithQM trimmed
    || anyLeadsCI trimmed ["what", "why", "how", "when", "where", "who", "which",
        "can", "could", "should", "would", "might", "maybe", "perhaps"]
    || anyIncludes (jsLower trimmed)
        ["i think", "i wonder", "i guess", "i suppose", "i feel like", "i feel as if"] then
    false
  else wordCount ≤ 15

/-- app.js `extractQuestionTopics` (lines 3950-3977); the `topicPatterns`
    regex array there is built but never consulted. -/
def extractQuestionTopics (question : String) : List String :=
  let lowerQuestion := jsLower question
  (if includes lowerQuestion "worst" || includes lowerQuestion "hardest" then
    ["worst", "hardest", "difficult", "problem", "issue"] else [])
  ++ (if includes lowerQuestion "relevant" || includes lowerQuestion "matter" then
    ["relevant", "matter", "point", "purpose", "meaning"] else [])
  ++ (if includes lowerQuestion "connect" then
    ["connect", "relate", "link", "tie"] else [])
  ++ (if includes lowerQuestion "bother" || includes lowerQuestion "difficult" then
    ["bother", "difficult", "hard", "problem", "issue"] else [])

/-- app.js `checkSemanticAlignment` (lines 3898-3947). -/
def checkSemanticAlignment (st : ConvState) (userInput previousQuestion : String) :
    Bool :=
  let lowerInput := jsLower userInput
  let lowerQuestion := jsLower previousQuestion
  let questionTopics := extractQuestionTopics previousQuestion
  if questionTopics.any (fun t => includes lowerInput t) then true
  else if (includes lowerQuestion "worst" || includes lowerQuestion "hardest" ||
      includes lowerQuestion "bother" || includes lowerQuestion "difficult")
      && anyIncludes lowerInput
        ["irrelevant", "boring", "pointless", "hard", "difficult",
         "bad at", "don't get", "dont get", "because", "seems", "feels"] then true
  else if (includes lowerQuestion "why" || includes lowerQuestion "what makes" ||
      includes lowerQuestion "what about")
      && (includes lowerInput "because" || includes lowerInput "since" ||
        leadsWith lowerInput "it" || leadsWith lowerInput "this" ||
        leadsWith lowerInput "that") then true
  else if (includes lowerQuestion "relevant" || includes lowerQuestion "connect" ||
      includes lowerQuestion "matter" || includes lowerQuestion "point")
      && (includes lowerInput "irrelevant" || includes lowerInput "doesn't matter" ||
        includes lowerInput "doesnt matter" || includes lowerInput "pointless" ||
        includes lowerInput "boring") then true
  else if st.conversationMode == some "clarifying" && strLen (jsTrim userInput) > 3 then
    true
  else false

/-- app.js `reducesAmbiguity` (lines 3979-4026). -/
def reducesAmbiguity (userInput : String) : Bool :=
  let lowerInput := jsLower userInput
  let uncertaintyCount :=
    (["i don't know", "i dont know", "not sure", "unsure", "uncertain",
      "maybe", "perhaps", "might", "could be", "possibly",
      "i think", "i guess", "i suppose", "i wonder",
      "what if", "how about", "why would", "could it"].filter
        (fun i => includes lowerInput i)).length
  if uncertaintyCount > 1 then false
  else
    let answerCount :=
      (["because", "since", "when", "it's", "its", "this is", "that is",
        "seems", "feels", "is", "are", "doesn't", "doesnt", "can't", "cannot",
        "irrelevant", "boring", "pointless", "hard", "difficult", "bad at",
        "don't get", "dont get"].filter (fun i => includes lowerInput i)).length
    if answerCount > 0 && uncertaintyCount == 0 then true
    else if answerCount > 0 && uncertaintyCount ≤ 1 then true
    else if wsTokenCount (jsTrim userInput) ≤ 8 && uncertaintyCount == 0 then true
    else uncertaintyCount == 0

/-- app.js `isSemanticAnswer` (lines 3833-3856): short/declarative, topically
    aligned, and ambiguity-reducing. -/
def isSemanticAnswer (st : ConvState) (userInput previousQuestion : String) : Bool :=
  if !(isShortOrDeclarative userInput) then false
  else if !(checkSemanticAlignment st userInput previousQuestion) then false
  else if !(reducesAmbiguity userInput) then false
  else true

/-- app.js `isAnsweringPreviousQuestion` (lines 3806-3830): consults the most
    recent recorded context turn. -/
def isAnsweringPreviousQuestion (st : ConvState) (userInput : String) : Bool :=
  match st.conversationContext.head? with
  | none => false
  | some lastContext =>
    if !lastContext.hadQuestion then false
    else
      match lastContext.lastQuestion with
      | none =>
        st.conversationMode == some "clarifying" && !(strEmpty (jsTrim userInput))
      | some previousQuestion =>
        if strEmpty previousQuestion then
          st.conversationMode == some "clarifying" && !(strEmpty (jsTrim userInput))
        else isSemanticAnswer st userInput previousQuestion

/-- app.js `introducesNewTopic` (lines 4078-4110). -/
def introducesNewTopic (st : ConvState) (userInput : String) : Bool :=
  if st.conversationContext.isEmpty then false
  else if anyLeadsCI userInput ["help me", "i need", "can you", "show me", "how do i", "how to"]
    || anyLeadsCI userInput ["actually", "wait", "hold on", "never mind", "forget it", "different"]
    || endsWithQM userInput
    || wsTokenCount (jsTrim userInput) > 20 then true
  else if anyLeadsCI userInput
      ["what", "why", "how", "when", "where", "who", "which",
       "can", "could", "should", "would"] then true
  else false

/-! ## Answer handling and directional options -/

/-- app.js `mirrorAnswer` (lines 4113-4145). -/
def mirrorAnswer (userInput certaintyLevel : String) : String :=
  let lowerInput := jsLower userInput
  let isLowCertainty := certaintyLevel == "low"
  if includes lowerInput "doesn't feel relevant" || includes lowerInput "doesnt feel relevant"
      || includes lowerInput "irrelevant" then
    if isLowCertainty then
      "If it feels like it might not be relevant, that can make it harder to care."
    else "If it feels irrelevant, that makes it hard to care or try."
  else if includes lowerInput "boring" || includes lowerInput "pointless" then
    "When something doesn't feel meaningful, it's hard to engage with it."
  else if includes lowerInput "difficult" || includes lowerInput "hard" then
    "This feels like a lot right now."
  else if includes lowerInput "don't get" || includes lowerInput "dont get"
      || includes lowerInput "don't understand" || includes lowerInput "dont understand" then
    "Not understanding why you need to do something makes it harder to care."
  else if includes lowerInput "bad at" || includes lowerInput "not good at" then
    "Feeling like you're not good at something makes it harder to start."
  else
    "I hear you."

/-- app.js `acknowledgeUnderstanding` (lines 4147-4164); `null` when minimal. -/
def acknowledgeUnderstanding (userInput : String) : Option String :=
  let lowerInput := jsLower userInput
  if includes lowerInput "irrelevant" || includes lowerInput "pointless"
      || includes lowerInput "boring" then
    some "We can go a few ways from here."
  else if includes lowerInput "hard" || includes lowerInput "difficult"
      || includes lowerInput "stuck" then
    some "We can work with this."
  else none

/-- app.js `offerDirectionalOptions` (lines 4166-4249). -/
def offerDirectionalOptions (userInput : String) (signal : Signal) : List String :=
  let lowerInput := jsLower userInput
  let hasExplicitOverwhelm := detectsOverwhelmSignal userInput
  let isExplanatory := signal.type == "explanatory" || includes lowerInput "because"
      || includes lowerInput "since" || includes lowerInput "it's"
      || includes lowerInput "its" || includes lowerInput "feels like"
      || includes lowerInput "seems like"
  if isExplanatory then
    ["That makes sense", "Talk more about this", "Help me get through the minimum"]
      ++ (if hasExplicitOverwhelm then ["Pause for now"] else [])
  else if includes lowerInput "irrelevant" || includes lowerInput "doesn't matter"
      || includes lowerInput "doesnt matter" || includes lowerInput "pointless"
      || includes lowerInput "boring" || includes lowerInput "don't care"
      || includes lowerInput "dont care" then
    ["That makes sense", "Talk more about this", "Help me get through the minimum"]
      ++ (if hasExplicitOverwhelm then ["Pause for now"] else [])
  else if includes lowerInput "hard" || includes lowerInput "difficult"
      || includes lowerInput "stuck" then
    ["That makes sense", "Talk more about this", "Make this smaller"]
      ++ (if hasExplicitOverwhelm || includes lowerInput "overwhelmed" then
          ["Pause for now"] else [])
  else if includes lowerInput "don't get" || includes lowerInput "dont get"
      || includes lowerInput "don't understand" || includes lowerInput "dont understand" then
    ["That makes sense", "Talk more about this", "Break this down differently"]
      ++ (if hasExplicitOverwhelm then ["Pause for now"] else [])
  else
    ["That makes sense", "Talk more about this", "Help me get through the minimum"]
      ++ (if hasExplicitOverwhelm then ["Pause for now"] else [])

/-- app.js `detectsExplicitReadiness` (lines 4251-4266). -/
def detectsExplicitReadiness (userInput : String) : Bool :=
  if strEmpty userInput then false
  else
    anyIncludes (jsLower userInput)
      ["i'm ready", "im ready", "ready", "let's start", "lets start", "let's go",
       "lets go", "show me", "help me start", "i want to start", "can we start",
       "how do i start", "what's the first step", "whats the first step",
       "first step", "begin", "start now", "i want to do this", "let's do this",
       "lets do this", "i'm ready to start", "im ready to start"]

/-- app.js `directionImpliesAction` (lines 4268-4280). -/
def directionImpliesAction (directionText : Option String) : Bool :=
  if !(jsTruthy directionText) then false
  else
    anyIncludes (jsLower (directionText.getD ""))
      ["help me get through", "help me start", "show me", "let's start", "lets start",
       "make this smaller", "break this down", "start this", "begin", "get started"]

/-- app.js `determineNextModeAfterAnswer` (lines 4282-4296). -/
def determineNextModeAfterAnswer (userInput : String) (signal : Signal) : String :=
  let lowerInput := jsLower userInput
  if signal.type == "ready_for_action" || includes lowerInput "help"
      || includes lowerInput "show me" || includes lowerInput "how do"
      || includes lowerInput "start" then
    "stepping"
  else "offering_direction"

/-! ## ConversationStateMachine: validation -/

/-- The action filter of validateSingleMode's calming branch. -/
def isPauseLikeAction (a : String) : Bool :=
  includes (jsLower a) "pause" || includes (jsLower a) "come back"
    || includes (jsLower a) "later"

/-- app.js `validateSingleMode` (lines 4339-4400), as a function on the
    mutated response.  The branch guards compare against the captured mode
    string; OFFERING_DIRECTION/SHRINKING and CALMING/PAUSED are each one
    string. -/
def validateSingleMode (r : Response) : Response :=
  if strEmpty r.mode then r
  else if r.mode == "listening" then
    let r1 := if jsTruthy r.question then { r with mode := "clarifying" } else r
    if r1.actions.length > 0 then { r1 with actions := [] } else r1
  else if r.mode == "clarifying" then
    if r.actions.length > 0 then { r with actions := [] } else r
  else if r.mode == "offering_direction" then
    if jsTruthy r.question then { r with question := none } else r
  else if r.mode == "calming" then
    let r1 := if jsTruthy r.question then { r with question := none } else r
    if r1.actions.length > 0 then
      let pauseActions := r1.actions.filter isPauseLikeAction
      if pauseActions.length != r1.actions.length then { r1 with actions := pauseActions }
      else r1
    else r1
  else if r.mode == "stepping" then
    if jsTruthy r.question then { r with question := none } else r
  else r

/-- The per-mode field whitelist of app.js lines 4333-4338 (forbidden-field
    half, with JS truthiness: an absent or empty question counts as none). -/
def respectsWhitelist (r : Response) : Bool :=
  if r.mode == "listening" then !(jsTruthy r.question) && r.actions.isEmpty
  else if r.mode == "clarifying" then r.actions.isEmpty
  else if r.mode == "offering_direction" then !(jsTruthy r.question)
  else if r.mode == "calming" then
    !(jsTruthy r.question) && r.actions.all isPauseLikeAction
  else if r.mode == "stepping" then !(jsTruthy r.question)
  else true

/-- app.js `handleQuestionAnswer` (lines 4030-4076).  The write-only debug
    flags `_transitionCue`, `_internalState` and `_transitionedFromClarifying`
    are omitted: nothing in the engine reads them. -/
def handleQuestionAnswer (userInput : String) (signal : Signal)
    (certaintyLevel : String) (st : ConvState) : Response × ConvState :=
  let mirror := mirrorAnswer userInput certaintyLevel
  let understanding := acknowledgeUnderstanding userInput
  let directionChoices := offerDirectionalOptions userInput signal
  let nextMode := determineNextModeAfterAnswer userInput signal
  let visibleMode :=
    if nextMode == "offering_direction" || nextMode == "shrinking" then
      "offering_direction"
    else nextMode
  let response : Response :=
    { mode := visibleMode
      message := .text (mirror ++ (match understanding with
        | some u => " " ++ u
        | none => ""))
      question := none
      actions := directionChoices }
  (validateSingleMode response, st)

/-! ## TaskBreakdownPlanner -/

/-- app.js `getPersonaMessage` (lines 5352-5385).  For resilience_help the
    source picks uniformly at random among the four approved
    acknowledgment phrases; the choice affects no step structure, so the
    first phrase stands for the draw. -/
def getPersonaMessage (type : String) : String :=
  if type == "resilience_help" then
    "This kind of assignment can feel heavy."
  else if type == "compare_contrast" then
    "Hey there! 👋 I see you're tackling a compare/contrast assignment. Think of it like this: imagine you're explaining to a friend why two movies are similar but different - you wouldn't just say \"they're both good,\" right? You'd break down WHY. That's exactly what we're going to do here, but with themes and ideas instead of movies!"
  else if type == "essay" then
    "Hey! 📝 So you've got a paper to write. I know it can feel like staring at a blank page is like trying to climb Mount Everest in flip-flops - overwhelming! But here's the thing: every big paper is just a bunch of smaller ideas connected together. We're going to build this one step at a time, like putting together a LEGO set."
  else if type == "reading_response" then
    "Hello! 📚 Reading assignments can feel like you're being asked to understand a whole universe in one go. But here's a secret: even the most complex books are made of smaller pieces. We're going to break this down like you're explaining the plot to a friend who missed the movie - piece by piece, in a way that makes sense."
  else
    "Hi there! 🎯 I see you've got a task ahead of you. You know that feeling when you look at a big project and your brain goes \"NOPE, TOO MUCH\"? We're going to trick your brain by making it think we're only doing tiny, easy things. One small step at a time, and before you know it, you'll be done!"

/-- app.js `getHowToStart` (lines 5387-5406). -/
def getHowToStart (type : String) : HowToStart :=
  if type == "resilience_help" then
    { title := "Let's Start Here"
      content := "You're dealing with something difficult right now." }
  else if type == "compare_contrast" then
    { title := "How to Get Started"
      content := "Before you start, take a moment to think: What's your goal here? Start by identifying ONE theme from the book that really stood out to you. Then, think about where you've seen something similar in the news, social media, or your own life. That connection is your starting point - everything else builds from there." }
  else if type == "essay" then
    { title := "How to Get Started"
      content := "Don't try to write the whole paper in your head first! Start by just writing down three things you want to say - they don't have to be perfect, they don't even have to be in order. Just get your thoughts on paper. Once you see them written down, your brain will start connecting the dots." }
  else
    { title := "How to Get Started"
      content := "Before diving in, think: What's the smallest, simplest thing you can do right now? Start with that. It gets your brain moving and helps you see what comes next." }

/-- app.js `getResilienceSteps` (lines 5425-5473): the "Take a Breath"
    regulation step leads only when `includeRegulation` was passed true. -/
def getResilienceSteps (includeRegulation : Bool) : List Step :=
  (if includeRegulation then
    [{ title := "Take a Breath"
       description := "If you want, you can pause here. You can pause whenever you want."
       needsInput := false }]
  else [])
  ++
  [{ title := "Name What's Happening"
     description := "What's going on for you right now? Being aware of what you're thinking and feeling is the first step to understanding how to work with it."
     needsInput := true
     inputPrompt := some "What's on your mind?"
     inputPlaceholder := some "Share what's happening - whatever comes to mind..." },
   { title := "What Can You Control?"
     description := "What can you actually control here? What can't you control? Understanding what's in your control helps you focus your energy where it actually matters."
     needsInput := true
     inputPrompt := some "What's in your control vs. what's not?"
     inputPlaceholder := some "List what you can control and what you can't..." },
   { title := "One Small Action"
     description := "What's one tiny thing you could do right now? Think about what action would actually help in this situation - not what you 'should' do, but what would actually work."
     needsInput := true
     inputPrompt := some "What's one small action you could take?"
     inputPlaceholder := some "Type one small thing you could do..." },
   { title := "Be Kind to Yourself"
     description := "What would you tell a friend in this situation?"
     needsInput := true
     inputPrompt := some "What would you say to a friend?"
     inputPlaceholder := some "Type what you'd tell a friend..." },
   { title := "Remember It's Temporary"
     description := "This feeling won't last forever. You've gotten through hard things before. Think about what helped you get through difficult times in the past - that's information about what strategies work for you."
     needsInput := false }]

/-- app.js `getCompareContrastSteps` (lines 5475-5553): step titles,
    prompts and checklists as in the source (the unused `hasBook` probe is
    dropped). -/
def getCompareContrastSteps : List Step :=
  [{ title := "Identify the Themes (Like Finding the Main Characters)"
     description := "Think of themes as the 'main characters' of the book's message. What big ideas kept showing up? For example, if you read about someone fighting for education, that's a theme. Write down 2-3 themes that really stuck with you - don't overthink it, just what felt important. As you work, notice: Are you understanding the themes, or just guessing? If you're not sure, that's information - it tells you what to focus on."
     checklist :=
       ["List 2-3 main themes from the book",
        "For each theme, write one sentence about why it matters",
        "Pick the theme that interests you most",
        "Check: Do you actually understand this theme, or are you guessing? (This helps you know what to focus on)"]
     analogy := some "It's like picking your favorite song from an album - you don't need to analyze every song, just the ones that hit you." },
   { title := "Find Current Connections (The 'Wait, This Sounds Familiar' Step)"
     description := "Now, where have you seen something similar happening? This doesn't have to be a perfect match - think about the CORE idea. If the book talks about fighting for rights, where do you see people fighting for rights today? News articles, social movements, even school policies can work! While you're looking, pay attention: Are you finding real connections, or forcing them? If connections feel forced, that's a signal to look for a different angle or a different current event."
     checklist :=
       ["Brainstorm 3-5 current events or situations that relate to your chosen theme",
        "For each one, write one sentence about the connection",
        "Choose 2-3 that have the strongest connections",
        "Ask yourself: Do these connections feel real, or am I forcing them? (If forced, try a different angle)"]
     analogy := some "Like when you hear a new song and think 'this reminds me of that other song' - you're finding the musical connection. Same idea, but with themes!" },
   { title := "Create Your Comparison Framework (The Organizing Step)"
     description := "This is where you decide HOW you'll compare. Will you talk about similarities first, then differences? Or will you go theme by theme? Create a simple structure: 'I'll compare X from the book to Y happening now, focusing on how they're similar in [way] but different in [way].' Think about which structure makes more sense for your specific comparison - there's no one right way, just what works for your ideas."
     checklist :=
       ["Decide on your comparison structure (similarities vs differences, or theme-by-theme)",
        "Write a simple sentence: 'I'm comparing [theme] to [current event]'",
        "List 2-3 specific points of comparison",
        "Ask: Does this structure make sense for what I'm comparing? (If not, try the other approach)"]
     analogy := some "It's like planning a road trip - you need to know your starting point, destination, and a few stops along the way. You don't need the whole map, just the main route." },
   { title := "Gather Your Evidence (The Detective Work)"
     description := "Now find specific examples. From the book: what scene or quote shows your theme? From current events: what specific example shows the connection? You don't need a million examples - just 2-3 solid ones that really prove your point."
     checklist :=
       ["Find 2-3 specific examples from the book (scenes, quotes, or moments)",
        "Find 2-3 specific examples from current events (news articles, events, or situations)",
        "For each example, write one sentence explaining why it matters"]
     analogy := some "Like building a case - you don't need every piece of evidence, just the strongest ones that really prove your point." },
   { title := "Write Your First Draft (The 'Just Get It Down' Step)"
     description := "Don't worry about perfection! Just write. Start with: 'In [book], one important theme is [theme]. This connects to [current event] because...' Write your thoughts, even if they're messy. You can clean it up later - right now, just get the ideas out of your head and onto paper."
     checklist :=
       ["Write an introduction that states your main comparison",
        "Write one paragraph about the theme in the book",
        "Write one paragraph about the current connection",
        "Write one paragraph comparing them",
        "Write a conclusion that ties it together"]
     analogy := some "Like making a sandwich - you put all the ingredients together first, then you can adjust and make it look nice. But first, you need the ingredients!" },
   { title := "Revise and Polish (The 'Make It Shine' Step)"
     description := "Now that you have your ideas down, make them clearer. Read through and ask: 'Does this make sense? Can someone else understand my point?' Add transitions between paragraphs, fix any confusing parts, and make sure your examples really support your main idea. After revising, ask yourself: Did this strategy work? What would I do differently next time? This helps you learn what works for you."
     checklist :=
       ["Read through your draft once for clarity",
        "Add transition sentences between paragraphs",
        "Check that each paragraph has a clear point",
        "Fix any spelling or grammar mistakes",
        "Read it one more time out loud to catch awkward phrases",
        "Reflect: What worked well in this process? What would I change next time?"]
     analogy := some "Like editing a photo - the picture is already there, you're just making the colors pop and cropping out the blurry parts." }]

/-- app.js `getEssaySteps` (lines 5555-5614). -/
def getEssaySteps : List Step :=
  [{ title := "Understand What You're Being Asked"
     description := "Read the assignment carefully and identify the key question or prompt. What is the main thing you need to answer or explain? Before you start, check: Do you actually understand what's being asked, or are you guessing? If you're not sure, that's valuable information - it tells you what to clarify first."
     checklist :=
       ["Highlight the main question in the assignment",
        "Identify any key words (analyze, explain, argue, etc.)",
        "Write in your own words what you think you need to do",
        "Check: Do I actually understand this, or am I guessing? (If guessing, ask for clarification)"] },
   { title := "Brainstorm Your Ideas"
     description := "Don't worry about organization yet - just get your thoughts down. What do you know about this topic? What do you think? As you brainstorm, notice: Are ideas coming easily, or are you stuck? If stuck, that's information - it might mean you need to learn more about the topic first, or approach it from a different angle."
     checklist :=
       ["Write down everything you know about the topic",
        "List any questions you have",
        "Note any ideas that pop into your head",
        "Notice: Are ideas flowing, or am I stuck? (If stuck, try a different approach)"] },
   { title := "Create an Outline"
     description := "Organize your ideas into a simple structure: introduction, main points, conclusion. This is your plan - think about what order makes the most sense for your ideas. Does this structure work for what you want to say? If it feels forced, try a different organization."
     checklist :=
       ["Write your main argument or thesis",
        "List 3-5 main points you want to make",
        "Decide the order that makes the most sense",
        "Check: Does this structure work, or does it feel forced? (If forced, try reorganizing)"] },
   { title := "Write Your First Draft"
     description := "Start writing! Don't worry about perfection - just get your ideas down on paper. As you write, pay attention: Is this flowing, or are you getting stuck? If you're stuck, that's a signal - maybe you need to go back and clarify your ideas, or try writing in a different order."
     checklist :=
       ["Write the introduction",
        "Write each body paragraph",
        "Write the conclusion",
        "Notice while writing: Is this flowing, or am I stuck? (If stuck, try a different approach)"] },
   { title := "Revise and Edit"
     description := "Read through your work and make it better. Check for clarity, flow, and correctness. After revising, think: What worked well in my process? What would I do differently next time? This reflection helps you become a better writer."
     checklist :=
       ["Read through once for content",
        "Check for clear transitions",
        "Fix grammar and spelling",
        "Make sure everything makes sense",
        "Reflect: What worked well? What would I change next time?"] }]

/-- app.js `getGeneralSteps` (lines 5616-5664). -/
def getGeneralSteps : List Step :=
  [{ title := "Break It Into Smaller Pieces"
     description := "Look at your assignment and identify the main components. What are the different parts you need to complete? Before you start, think: What's your plan here? Breaking things down helps you see what you're actually dealing with, which makes it less overwhelming."
     checklist :=
       ["List all the parts of the assignment",
        "Put them in order of what needs to be done first",
        "Identify which parts seem easiest",
        "Ask: Does this breakdown make sense? (If not, try a different way of organizing)"] },
   { title := "Start With the Easiest Part"
     description := "Begin with whatever feels most manageable. Getting started is often the hardest part! As you work, notice: Is this strategy working? Are you making progress, or are you still stuck? If stuck, that's information - maybe you need a different starting point."
     checklist :=
       ["Pick the easiest or most interesting part",
        "Set a timer for 15-20 minutes",
        "Work on just that one part",
        "Check: Is this working, or am I still stuck? (If stuck, try a different part)"] },
   { title := "Tackle the Rest One at a Time"
     description := "Work through each part systematically. Don't try to do everything at once. While you work, monitor your progress: Are you understanding what you're doing, or just going through the motions? If you're not understanding, that's a signal to slow down or ask for help."
     checklist :=
       ["Move to the next part",
        "Complete it before moving on",
        "Take short breaks between parts",
        "Monitor: Am I understanding this, or just going through motions? (If not understanding, slow down)"] },
   { title := "Review and Complete"
     description := "Check your work and make sure everything is done and makes sense. After you're done, take a moment to reflect: What worked well in your process? What would you do differently next time? This helps you learn what strategies work for you."
     checklist :=
       ["Review each part",
        "Make sure nothing is missing",
        "Double-check requirements",
        "Reflect: What worked well? What would I change next time?"] }]

/-- The JS access chain `this.conversationContext[this.conversationContext.length - 1]?.userSelectedPause`. -/
def lastTurnSelectedPause (st : ConvState) : Bool :=
  match st.conversationContext.head? with
  | some t => t.userSelectedPause
  | none => false

/-- app.js `getSteps` (lines 5408-5422): for resilience_help the regulation
    gate re-checks `this.lastUserInput` (the stored last turn input) and the
    `userSelectedPause` flag on the most recent context turn. -/
def getSteps (st : ConvState) (type : String) (includeRegulation : Bool) : List Step :=
  if type == "resilience_help" then
    let hasExplicitOverwhelm := detectsOverwhelmSignal (st.lastUserInput.getD "")
    getResilienceSteps
      (includeRegulation && (hasExplicitOverwhelm || lastTurnSelectedPause st))
  else if type == "compare_contrast" then getCompareContrastSteps
  else if type == "essay" then getEssaySteps
  else getGeneralSteps

/-- app.js `generateBreakdown` (lines 5332-5351): for resilience_help the
    assignment text itself is probed for an explicit overwhelm signal
    before delegating to `getSteps`. -/
def generateBreakdown (st : ConvState) (assignment type : String) : Breakdown :=
  let steps :=
    if type == "resilience_help" then
      getSteps st type (detectsOverwhelmSignal assignment)
    else getSteps st type false
  { btype := type
    personaMessage := getPersonaMessage type
    howToStart := getHowToStart type
    steps := steps }

/-- app.js `breakDownAssignment` (lines 5295-5330): general-help keywords
    win over assignment keywords (the computed `hasAssignment` flag is never
    read afterwards). -/
def breakDownAssignment (st : ConvState) (assignment : String) : Breakdown :=
  let lowerAssignment := jsLower assignment
  let hasGeneralHelp := anyIncludes lowerAssignment
    ["hate", "difficult", "hard", "struggling", "stuck", "overwhelmed",
     "frustrated", "anxious", "stress", "can't", "cannot", "don't know", "help me",
     "feel", "feeling", "deal with", "cope", "handle", "situation", "problem",
     "issue", "doesn't", "doesnt", "seem", "relevant", "boring", "pointless",
     "useless", "sucks", "not working", "not helpful", "waste of time"]
  if hasGeneralHelp then generateBreakdown st assignment "resilience_help"
  else
    let assignmentType :=
      if includes lowerAssignment "compare" || includes lowerAssignment "contrast"
          || includes lowerAssignment "correlate" || includes lowerAssignment "theme" then
        "compare_contrast"
      else if includes lowerAssignment "write" && includes lowerAssignment "paper" then
        "essay"
      else if includes lowerAssignment "read" || includes lowerAssignment "book" then
        "reading_response"
      else "general"
    generateBreakdown st assignment assignmentType

/-- JS `x || null` on an optional string field. -/
def jsOrNull (o : Option String) : Option String :=
  if jsTruthy o then o else none

/-- app.js `presentNextTinyStep` (lines 4420-4459): the first step of the
    supplied context breakdown, else of a freshly generated one, else the
    default tiny step. -/
def presentNextTinyStep (st : ConvState) (ctx : Option Breakdown) : Msg :=
  let defaultCard : Msg := .card "One Tiny Thing"
    "What's the smallest, easiest part you could do right now? Just one thing."
    true (some "What's one tiny thing you could do?") (some "Type one small thing...")
  let ofStep : Step → Msg := fun s =>
    .card s.title s.description s.needsInput (jsOrNull s.inputPrompt)
      (jsOrNull s.inputPlaceholder)
  match ctx with
  | some breakdown =>
    match breakdown.steps.head? with
    | some firstStep => ofStep firstStep
    | none =>
      match st.currentAssignment with
      | some a =>
        if strEmpty a then defaultCard
        else
          match (breakDownAssignment st a).steps.head? with
          | some firstStep => ofStep firstStep
          | none => defaultCard
      | none => defaultCard
  | none =>
    match st.currentAssignment with
    | some a =>
      if strEmpty a then defaultCard
      else
        match (breakDownAssignment st a).steps.head? with
        | some firstStep => ofStep firstStep
        | none => defaultCard
    | none => defaultCard

/-! ## ResponseComposer -/

/-- app.js `permissionBasedTransition` (lines 4414-4417). -/
def permissionBasedTransition : String :=
  "Want to keep going, or make this into one tiny step?"

/-- The question-tracking mutation on the just-pushed context turn
    (`lastContext.hadQuestion = true; lastContext.lastQuestion = q`). -/
def markQuestion (st : ConvState) (q : String) : ConvState :=
  match st.conversationContext with
  | [] => st
  | t :: rest =>
    { st with conversationContext :=
        { t with hadQuestion := true, lastQuestion := some q } :: rest }

/-- app.js `generateFrankResponse` (lines 3322-3505): classify, store the
    input, push the turn, run the answer-detection gates, then dispatch on
    the signal type.  Note that both gates read `hadQuestion` from the
    entry at `length - 1` after the current turn was pushed, i.e. from the
    fresh turn itself. -/
def generateFrankResponse (cfg : Option FrankConfig) (st0 : ConvState)
    (userInput : String) (ctx : Option Breakdown) : Response × ConvState :=
  let signal := classifyInput cfg st0 userInput
  let st1 := { st0 with lastUserInput := some userInput }
  let certaintyLevel := jsOrStr signal.certaintyLevel "medium"
  let turn : Turn :=
    { input := userInput, signal := signal.type, certaintyLevel := certaintyLevel }
  let st := { st1 with conversationContext := turn :: st1.conversationContext }
  let newTopic := introducesNewTopic st userInput
  let wasInClarifyingMode := st.conversationMode == some "clarifying"
  let hadPreviousQuestion :=
    match st.conversationContext.head? with
    | some t => t.hadQuestion
    | none => false
  if wasInClarifyingMode && !newTopic && hadPreviousQuestion then
    handleQuestionAnswer userInput signal certaintyLevel st
  else if isAnsweringPreviousQuestion st userInput && !newTopic then
    handleQuestionAnswer userInput signal certaintyLevel st
  else if signal.type == "emotional" then
    if st.conversationMode == some "clarifying" then
      handleQuestionAnswer userInput signal certaintyLevel st
    else
      let emotionalQuestion := askOneClarifyingQuestion userInput certaintyLevel
      ({ mode := "clarifying"
         message := .text (mirrorEmotion cfg userInput certaintyLevel)
         question := some emotionalQuestion
         actions := [] }, markQuestion st emotionalQuestion)
  else if signal.type == "explanatory" then
    if st.conversationMode == some "clarifying" then
      handleQuestionAnswer userInput signal certaintyLevel st
    else
      let explanatoryQuestion := narrowChoices userInput certaintyLevel
      ({ mode := "clarifying"
         message := .text (reflectMeaning userInput certaintyLevel)
         question := some explanatoryQuestion
         actions := [] }, markQuestion st explanatoryQuestion)
  else if signal.type == "overwhelmed" then
    if signal.hasLossOfFunction == some true then
      ({ mode := "calming"
         message := .text gentleReassurance
         question := none
         actions := ["Pause", "Come back later"] }, st)
    else
      let functionQuestion := askFunctionCheckQuestion
      ({ mode := "clarifying"
         message := .text (handleIntensityAsInformation userInput)
         question := some functionQuestion
         actions := [] }, markQuestion st functionQuestion)
  else if signal.type == "intense_emotion" then
    let intenseQuestion := askFunctionCheckQuestion
    ({ mode := "clarifying"
       message := .text (handleIntensityAsInformation userInput)
       question := some intenseQuestion
       actions := [] }, markQuestion st intenseQuestion)
  else if signal.type == "request_to_shrink" then
    ({ mode := "offering_direction"
       message := .text permissionBasedTransition
       question := none
       actions := ["Make this smaller"] }, st)
  else if signal.type == "ready_for_action" then
    let hasExplicitReadiness := detectsExplicitReadiness userInput
    let selectedActionDirection :=
      match st.conversationContext.head? with
      | some t => t.selectedDirection
      | none => none
    let directionIsAction := directionImpliesAction selectedActionDirection
    let shouldShowActionButtons := hasExplicitReadiness || directionIsAction
      || (st.conversationContext.length == 1 && !(strEmpty signal.input)
          && isDirectAssignmentRequest cfg signal.input)
    ({ mode := "stepping"
       message := presentNextTinyStep st ctx
       question := none
       actions := if shouldShowActionButtons then ["Start this step", "Make it smaller"]
         else [] }, st)
  else
    ({ mode := "listening"
       message := .text (mirrorEmotion cfg userInput "medium")
       question := some (askOneClarifyingQuestion userInput "medium")
       actions := [] }, st)

/-- One engine turn as driven by app.js `processAssignment`
    (lines 4689-4735): build the context breakdown, generate, validate,
    adopt the response mode (`setConversationMode` accepts only the MODES
    values) and record the asked question on the current context turn.
    The content-policy filter runs before this path and is external to the
    core. -/
def processTurn (cfg : Option FrankConfig) (st0 : ConvState) (input : String) :
    Response × ConvState :=
  let stA := { st0 with currentAssignment := some input }
  let ctx := some (breakDownAssignment stA input)
  let (response0, st1) := generateFrankResponse cfg stA input ctx
  let response := validateSingleMode response0
  let st2 :=
    if ["listening", "clarifying", "offering_direction", "calming",
        "stepping"].contains response.mode then
      { st1 with conversationMode := some response.mode }
    else st1
  let st3 :=
    if jsTruthy response.question then
      match st2.conversationContext with
      | [] => st2
      | t :: rest =>
        { st2 with conversationContext :=
            { t with hadQuestion := true, lastQuestion := response.question } :: rest }
    else st2
  (response, st3)

/-! ## Derived predicates used by the theorems -/

/-- A session state in which the previous turn was recorded with
    hadQuestion = true and lastQuestion = "What about it feels the worst
    right now?", and the conversation is in Clarifying mode; all other
    components are arbitrary. -/
def c5State (i0 sg cl : String) (sd : Option String) (pz : Bool)
    (rest : List Turn) (lu ca : Option String) : ConvState :=
  { conversationMode := some "clarifying"
    conversationContext :=
      { input := i0, signal := sg, certaintyLevel := cl, hadQuestion := true,
        lastQuestion := some "What about it feels the worst right now?",
        selectedDirection := sd, userSelectedPause := pz } :: rest
    lastUserInput := lu
    currentAssignment := ca }

/-- The response shapes generateFrankResponse can emit: one of the four
    reachable modes, with the per-mode field discipline. -/
def goodResponse (r : Response) : Prop :=
  (r.mode = "clarifying" ∨ r.mode = "calming" ∨ r.mode = "offering_direction"
    ∨ r.mode = "stepping")
  ∧ (r.mode = "clarifying" → r.actions = [])
  ∧ (r.mode = "stepping" → r.question = none)
  ∧ (r.mode = "calming" → r.question = none ∧ r.actions = ["Pause", "Come back later"])

/-! ## Helper lemmas -/

theorem strEmpty_iff (s : String) : strEmpty s = true ↔ s = "" := by
  cases s with
  | mk data => simp [strEmpty, List.isEmpty_iff, String.ext_iff]

/-- classifyInput only ever emits the six signal types that
    generateFrankResponse dispatches on. -/
theorem classify_mem (cfg : Option FrankConfig) (st : ConvState) (input : String) :
    (classifyInput cfg st input).type ∈
      ["overwhelmed", "intense_emotion", "ready_for_action", "request_to_shrink",
       "explanatory", "emotional"] := by
  unfold classifyInput
  repeat' split <;> simp_all

/-- The answer path emits Stepping or OfferingDirection, never a question. -/
theorem hqa_spec (u : String) (sig : Signal) (c : String) (st : ConvState) :
    ((handleQuestionAnswer u sig c st).1.mode = "stepping"
      ∨ (handleQuestionAnswer u sig c st).1.mode = "offering_direction")
    ∧ (handleQuestionAnswer u sig c st).1.question = none
    ∧ (handleQuestionAnswer u sig c st).1.actions = offerDirectionalOptions u sig := by
  unfold handleQuestionAnswer determineNextModeAfterAnswer
  dsimp only
  split <;> simp [validateSingleMode, strEmpty, jsTruthy]

theorem hqa_mode_not_clarifying (u : String) (sig : Signal) (c : String)
    (st : ConvState) :
    ((handleQuestionAnswer u sig c st).1.mode = "clarifying") ↔ False := by
  rcases (hqa_spec u sig c st).1 with h | h <;> simp [h]

theorem hqa_good (u : String) (sig : Signal) (c : String) (st : ConvState) :
    goodResponse (handleQuestionAnswer u sig c st).1 := by
  unfold handleQuestionAnswer determineNextModeAfterAnswer
  dsimp only
  split <;> simp [goodResponse, validateSingleMode, strEmpty, jsTruthy]

/-- Every branch of generateFrankResponse yields a well-formed response. -/
theorem gfr_good (cfg : Option FrankConfig) (st : ConvState) (input : String)
    (ctx : Option Breakdown) :
    goodResponse (generateFrankResponse cfg st input ctx).1 := by
  unfold generateFrankResponse
  dsimp only
  split
  · apply hqa_good
  split
  · apply hqa_good
  split
  · split
    · apply hqa_good
    · simp [goodResponse]
  split
  · split
    · apply hqa_good
    · simp [goodResponse]
  split
  · split
    · simp [goodResponse]
    · simp [goodResponse]
  split
  · simp [goodResponse]
  split
  · simp [goodResponse]
  split
  · simp [goodResponse]
  · have hm := classify_mem cfg st input
    simp_all [goodResponse]

theorem validate_message (r : Response) :
    (validateSingleMode r).message = r.message := by
  unfold validateSingleMode
  dsimp only
  split_ifs <;> rfl

theorem validate_question (r : Response) :
    (validateSingleMode r).question = r.question
      ∨ (validateSingleMode r).question = none := by
  unfold validateSingleMode
  dsimp only
  split_ifs <;> simp

theorem validate_sublist (r : Response) :
    (validateSingleMode r).actions.Sublist r.actions := by
  unfold validateSingleMode
  dsimp only
  split_ifs <;> simp [List.filter_sublist]

theorem validate_mode (r : Response)
    (h : ¬(r.mode = "listening" ∧ jsTruthy r.question = true)) :
    (validateSingleMode r).mode = r.mode := by
  unfold validateSingleMode
  dsimp only
  split_ifs <;> simp_all

theorem validate_valid (r : Response) (h : respectsWhitelist r = true) :
    validateSingleMode r = r := by
  unfold validateSingleMode
  unfold respectsWhitelist at h
  dsimp only
  split_ifs <;> simp_all [List.isEmpty_iff, List.length_eq_zero]

theorem validate_respects (r : Response) :
    respectsWhitelist (validateSingleMode r) = true := by
  unfold validateSingleMode
  dsimp only
  split_ifs <;>
    simp_all [respectsWhitelist, jsTruthy, strEmpty_iff,
      List.isEmpty_iff, List.length_eq_zero, List.all_eq_true, List.mem_filter]

/-- A loss-of-function match wins the classification cascade. -/
theorem classify_lof (st : ConvState) (text : String)
    (hany : anyIncludes (jsLower text) lossOfFunctionSignals = true) :
    classifyInput (some frankConfig) st text =
      ⟨"overwhelmed", text, detectCertaintyLevel (some frankConfig) text, some true⟩ := by
  unfold classifyInput
  simp only [frankConfig, dobrowskiIAI, dobrowskiPr, optAny, reduceIte]
  rw [if_pos hany]

/-- With a classification config present, Clarifying mode plus non-blank
    input means the cascade never reaches the explanatory/emotional
    branches. -/
theorem classify_clarifying (cfg : Option FrankConfig) (cc : InputClassification)
    (st : ConvState) (input : String)
    (hcc : (match cfg with | none => none | some c => c.inputClassification) = some cc)
    (h1 : st.conversationMode = some "clarifying")
    (h2 : strEmpty (jsTrim input) = false) :
    (classifyInput cfg st input).type ∈
      ["overwhelmed", "intense_emotion", "request_to_shrink", "ready_for_action"] := by
  unfold classifyInput
  rw [hcc]
  dsimp only
  repeat' split <;> simp_all

/-! ## Claims -/

/-- C1: any input containing a loss-of-function marker classifies as
    Overwhelmed with hasLossOfFunction = true, and its generated Response
    has mode Calming, no question, and actions within
    {Pause, Come back later}. -/
theorem C1_lossOfFunction_calming (st : ConvState) (ctx : Option Breakdown)
    (text : String)
    (h : ∃ m ∈ lossOfFunctionSignals, includes (jsLower text) m = true) :
    (classifyInput (some frankConfig) st text).type = "overwhelmed"
    ∧ (classifyInput (some frankConfig) st text).hasLossOfFunction = some true
    ∧ (generateFrankResponse (some frankConfig) st text ctx).1.mode = "calming"
    ∧ (generateFrankResponse (some frankConfig) st text ctx).1.question = none
    ∧ ∀ a ∈ (generateFrankResponse (some frankConfig) st text ctx).1.actions,
        a = "Pause" ∨ a = "Come back later" := by
  have hany : anyIncludes (jsLower text) lossOfFunctionSignals = true := by
    rcases h with ⟨m, hm, hi⟩
    exact List.any_eq_true.mpr ⟨m, hm, hi⟩
  have hc := classify_lof st text hany
  have hg : (generateFrankResponse (some frankConfig) st text ctx).1 =
      ⟨"calming", .text gentleReassurance, none, ["Pause", "Come back later"]⟩ := by
    unfold generateFrankResponse
    rw [hc]
    dsimp only
    simp [isAnsweringPreviousQuestion]
  refine ⟨by rw [hc], by rw [hc], by rw [hg], by rw [hg], ?_⟩
  rw [hg]
  intro a ha
  simpa using ha

/-- C1 witness: the concrete input "i feel frozen" contains the marker
    "frozen" and yields the Calming response. -/
theorem C1_lossOfFunction_calming_witness :
    (∃ m ∈ lossOfFunctionSignals, includes (jsLower "i feel frozen") m = true)
    ∧ (generateFrankResponse (some frankConfig) {} "i feel frozen" none).1.mode
        = "calming" :=
  ⟨by decide, (C1_lossOfFunction_calming {} none "i feel frozen" (by decide)).2.2.1⟩

/-- C2: every generated Response obeys the per-mode whitelist (Clarifying
    never carries actions, Stepping never carries a question), and
    validateSingleMode is the identity on already-valid Responses. -/
theorem C2_single_mode_whitelist (cfg : Option FrankConfig) (st : ConvState)
    (input : String) (ctx : Option Breakdown) :
    ((generateFrankResponse cfg st input ctx).1.mode = "clarifying" →
      (generateFrankResponse cfg st input ctx).1.actions = [])
    ∧ ((generateFrankResponse cfg st input ctx).1.mode = "stepping" →
      (generateFrankResponse cfg st input ctx).1.question = none)
    ∧ (∀ r : Response, respectsWhitelist r = true → validateSingleMode r = r) :=
  ⟨(gfr_good cfg st input ctx).2.1, (gfr_good cfg st input ctx).2.2.1,
   fun r h => validate_valid r h⟩

/-- C2 witness: a clarifying turn for "this is boring" carries no actions,
    a stepping turn for a direct essay request carries no question, and
    validation fixes a concrete valid clarifying Response. -/
theorem C2_single_mode_whitelist_witness :
    (generateFrankResponse (some frankConfig) {} "this is boring" none).1.actions = []
    ∧ (generateFrankResponse (some frankConfig) {}
        "help me write an essay about World War I" none).1.question = none
    ∧ validateSingleMode ⟨"clarifying", Msg.text "m", some "q?", []⟩
        = ⟨"clarifying", Msg.text "m", some "q?", []⟩ :=
  ⟨(C2_single_mode_whitelist (some frankConfig) {} "this is boring" none).1 (by decide),
   (C2_single_mode_whitelist (some frankConfig) {}
      "help me write an essay about World War I" none).2.1 (by decide),
   (C2_single_mode_whitelist (some frankConfig) {} "x" none).2.2 _ (by decide)⟩

/-- C3 counterexample: "I can't do this, it's too much" matches the
    intensity-only marker "too much" (and no loss-of-function marker), so
    it is NOT classified Overwhelmed and the Response is NOT Calming. -/
theorem C3_counterexample_not_calming :
    (classifyInput (some frankConfig) {} "I can't do this, it's too much").type
      ≠ "overwhelmed"
    ∧ (classifyInput (some frankConfig) {} "I can't do this, it's too much").hasLossOfFunction
      ≠ some true
    ∧ (generateFrankResponse (some frankConfig) {} "I can't do this, it's too much" none).1.mode
      ≠ "calming" := by
  refine ⟨by decide, by decide, by decide⟩

/-- C3 amended: that input classifies as IntenseEmotion with
    hasLossOfFunction = false (certainty High), and the Response is a
    Clarifying turn asking the function-check question. -/
theorem C3_intense_emotion_clarifying :
    (classifyInput (some frankConfig) {} "I can't do this, it's too much").type
      = "intense_emotion"
    ∧ (classifyInput (some frankConfig) {} "I can't do this, it's too much").hasLossOfFunction
      = some false
    ∧ (classifyInput (some frankConfig) {} "I can't do this, it's too much").certaintyLevel
      = "high"
    ∧ (generateFrankResponse (some frankConfig) {} "I can't do this, it's too much" none).1.mode
      = "clarifying"
    ∧ (generateFrankResponse (some frankConfig) {} "I can't do this, it's too much" none).1.question
      = some askFunctionCheckQuestion := by
  refine ⟨by decide, by decide, by decide, by decide, by decide⟩

/-- C4 counterexample: from a fresh session, submitting "this is
    unbearable" twice produces two consecutive Clarifying responses with
    the identical clarifying question. -/
theorem C4_counterexample_repeated_question :
    ((processTurn (some frankConfig) {} "this is unbearable").1.mode = "clarifying"
      ∧ (processTurn (some frankConfig) {} "this is unbearable").1.question
          = some askFunctionCheckQuestion)
    ∧ ((processTurn (some frankConfig)
          (processTurn (some frankConfig) {} "this is unbearable").2
          "this is unbearable").1.mode = "clarifying"
      ∧ (processTurn (some frankConfig)
          (processTurn (some frankConfig) {} "this is unbearable").2
          "this is unbearable").1.question
          = (processTurn (some frankConfig) {} "this is unbearable").1.question) := by
  refine ⟨⟨by decide, by decide⟩, by decide, by decide⟩

/-- C4 amended: after a Clarifying turn, the only Clarifying response the
    engine can produce for a non-blank follow-up is the fixed function-check
    question (reachable when the new input itself carries an intensity or
    overwhelm signal); the topical clarifying questions of the emotional and
    explanatory branches cannot repeat. -/
theorem C4_clarifying_followup_function_check (st : ConvState)
    (ctx : Option Breakdown) (input : String)
    (h1 : st.conversationMode = some "clarifying")
    (h2 : strEmpty (jsTrim input) = false)
    (h3 : (generateFrankResponse (some frankConfig) st input ctx).1.mode = "clarifying") :
    (generateFrankResponse (some frankConfig) st input ctx).1.question
      = some askFunctionCheckQuestion := by
  have htype := classify_clarifying (some frankConfig) _ st input rfl h1 h2
  revert h3
  unfold generateFrankResponse
  dsimp only
  split
  · intro h3
    simp [hqa_mode_not_clarifying] at h3
  split
  · intro h3
    simp [hqa_mode_not_clarifying] at h3
  split
  · simp_all
  split
  · simp_all
  split
  · split
    · intro h3
      simp at h3
    · intro _
      rfl
  split
  · intro _
    rfl
  split
  · intro h3
    simp at h3
  split
  · intro h3
    simp at h3
  · intro h3
    simp at h3

/-- C4 amended witness: in Clarifying mode the input "this is unbearable"
    yields a Clarifying response whose question is the function check. -/
theorem C4_clarifying_followup_witness :
    ({ conversationMode := some "clarifying" } : ConvState).conversationMode
        = some "clarifying"
    ∧ strEmpty (jsTrim "this is unbearable") = false
    ∧ (generateFrankResponse (some frankConfig)
        { conversationMode := some "clarifying" } "this is unbearable" none).1.mode
        = "clarifying"
    ∧ (generateFrankResponse (some frankConfig)
        { conversationMode := some "clarifying" } "this is unbearable" none).1.question
        = some askFunctionCheckQuestion :=
  ⟨rfl, by decide, by decide,
   C4_clarifying_followup_function_check { conversationMode := some "clarifying" }
     none "this is unbearable" rfl (by decide) (by decide)⟩

/-- C5: with the previous turn recorded as having asked "What about it
    feels the worst right now?" in Clarifying mode, the input "the reading
    is just confusing" is detected as an answer, and the Response for it is
    Stepping (not Clarifying) with no question. -/
theorem C5_answer_detected_no_requestion (i0 sg cl : String) (sd : Option String)
    (pz : Bool) (rest : List Turn) (lu ca : Option String) (ctx : Option Breakdown) :
    isAnsweringPreviousQuestion (c5State i0 sg cl sd pz rest lu ca)
      "the reading is just confusing" = true
    ∧ (generateFrankResponse (some frankConfig) (c5State i0 sg cl sd pz rest lu ca)
        "the reading is just confusing" ctx).1.mode = "stepping"
    ∧ (generateFrankResponse (some frankConfig) (c5State i0 sg cl sd pz rest lu ca)
        "the reading is just confusing" ctx).1.mode ≠ "clarifying"
    ∧ (generateFrankResponse (some frankConfig) (c5State i0 sg cl sd pz rest lu ca)
        "the reading is just confusing" ctx).1.question = none := by
  refine ⟨rfl, rfl, ?_, rfl⟩
  have h2 : (generateFrankResponse (some frankConfig) (c5State i0 sg cl sd pz rest lu ca)
      "the reading is just confusing" ctx).1.mode = "stepping" := rfl
  rw [h2]
  decide

/-- C6 counterexample: "this feels kind of pointless" contains the
    low-certainty marker "kind of", yet certainty is High (the
    high-certainty marker "pointless" is checked first), and the mirror is
    the meaning-making acknowledgment, not a hedged phrase. -/
theorem C6_counterexample_certainty_not_low :
    anyIncludes (jsLower "this feels kind of pointless") lowCertaintyMarkers = true
    ∧ detectCertaintyLevel (some frankConfig) "this feels kind of pointless" ≠ "low"
    ∧ mirrorEmotion (some frankConfig) "this feels kind of pointless"
        (detectCertaintyLevel (some frankConfig) "this feels kind of pointless")
        = "That question makes sense." := by
  refine ⟨by decide, by decide, by decide⟩

/-- C6 amended: that input yields certaintyLevel High and the
    meaning-making mirror; certainty detection checks high-certainty
    markers before low-certainty markers and defaults unmatched text to
    Medium. -/
theorem C6_certainty_priority :
    detectCertaintyLevel (some frankConfig) "this feels kind of pointless" = "high"
    ∧ mirrorEmotion (some frankConfig) "this feels kind of pointless" "high"
        = "That question makes sense."
    ∧ (∀ text, anyIncludes (jsLower text) highCertaintyMarkers = true →
        detectCertaintyLevel (some frankConfig) text = "high")
    ∧ (∀ text, anyIncludes (jsLower text) highCertaintyMarkers = false →
        anyIncludes (jsLower text) lowCertaintyMarkers = false →
        detectCertaintyLevel (some frankConfig) text = "medium") := by
  refine ⟨by decide, by decide, ?_, ?_⟩
  · intro text h
    have hne : strEmpty text = false := by
      cases hse : strEmpty text
      · rfl
      · have he : text = "" := (strEmpty_iff text).mp hse
        rw [he] at h
        exact absurd h (by decide)
    unfold detectCertaintyLevel
    simp only [frankConfig, optAny, hne]
    simp [h]
  · intro text h1 h2
    unfold detectCertaintyLevel
    cases hse : strEmpty text
    · simp only [frankConfig, optAny, hse]
      simp [h1, h2]
    · simp [hse]

/-- C6 witness: "i definitely hate maybe this" has a high marker and is
    classified High; "the weather report" matches nothing and defaults to
    Medium. -/
theorem C6_certainty_priority_witness :
    anyIncludes (jsLower "i definitely hate maybe this") highCertaintyMarkers = true
    ∧ detectCertaintyLevel (some frankConfig) "i definitely hate maybe this" = "high"
    ∧ anyIncludes (jsLower "the weather report") highCertaintyMarkers = false
    ∧ anyIncludes (jsLower "the weather report") lowCertaintyMarkers = false
    ∧ detectCertaintyLevel (some frankConfig) "the weather report" = "medium" :=
  ⟨by decide,
   C6_certainty_priority.2.2.1 "i definitely hate maybe this" (by decide),
   by decide, by decide,
   C6_certainty_priority.2.2.2 "the weather report" (by decide) (by decide)⟩

/-- C7 counterexample: the assignment "this is too hard, i give up"
    carries an explicit overwhelm marker, yet a resilience_help breakdown
    generated from it in a fresh session (no stored last input, no pause
    selection) does NOT begin with "Take a Breath". -/
theorem C7_counterexample_overwhelm_without_breath :
    detectsOverwhelmSignal "this is too hard, i give up" = true
    ∧ (generateBreakdown {} "this is too hard, i give up" "resilience_help").steps.head?.map
        (fun s => s.title) = some "Name What's Happening" := by
  refine ⟨by decide, by decide⟩

/-- C7 amended: a resilience_help breakdown begins with "Take a Breath"
    iff the assignment text carries an explicit overwhelm marker AND the
    stored last user input carries one too (or the last turn selected
    pause); in particular an assignment with no overwhelm marker never
    yields a leading "Take a Breath", its first step being "Name What's
    Happening". -/
theorem C7_breath_step_iff (st : ConvState) (a : String) :
    ((generateBreakdown st a "resilience_help").steps.head?.map (fun s => s.title)
        = some "Take a Breath"
      ↔ (detectsOverwhelmSignal a = true
        ∧ (detectsOverwhelmSignal (st.lastUserInput.getD "") = true
           ∨ lastTurnSelectedPause st = true)))
    ∧ (detectsOverwhelmSignal a = false →
        (generateBreakdown st a "resilience_help").steps.head?.map (fun s => s.title)
          = some "Name What's Happening") := by
  cases hA : detectsOverwhelmSignal a <;>
    cases hB : detectsOverwhelmSignal (st.lastUserInput.getD "") <;>
      cases hC : lastTurnSelectedPause st <;>
        simp_all [generateBreakdown, getSteps, getResilienceSteps]

/-- C7 witness: with matching stored input the breath step does lead, and
    without an overwhelm marker the first step differs. -/
theorem C7_breath_step_iff_witness :
    ((generateBreakdown { lastUserInput := some "this is too hard, i give up" }
        "this is too hard, i give up" "resilience_help").steps.head?.map
          (fun s => s.title) = some "Take a Breath")
    ∧ detectsOverwhelmSignal "i hate this essay so much" = false
    ∧ (generateBreakdown {} "i hate this essay so much" "resilience_help").steps.head?.map
        (fun s => s.title) = some "Name What's Happening" :=
  ⟨(C7_breath_step_iff { lastUserInput := some "this is too hard, i give up" }
      "this is too hard, i give up").1.mpr ⟨by decide, Or.inl (by decide)⟩,
   by decide,
   (C7_breath_step_iff {} "i hate this essay so much").2 (by decide)⟩

/-- C8 counterexample: a Listening response carrying a question violates
    the whitelist, and validateSingleMode repairs it by CHANGING ITS MODE
    to Clarifying rather than stripping the question. -/
theorem C8_counterexample_mode_changed :
    respectsWhitelist ⟨"listening", Msg.text "m", some "q?", []⟩ = false
    ∧ (validateSingleMode ⟨"listening", Msg.text "m", some "q?", []⟩).mode ≠ "listening"
    ∧ (validateSingleMode ⟨"listening", Msg.text "m", some "q?", []⟩).question = some "q?" := by
  refine ⟨by decide, by decide, by decide⟩

/-- C8 amended: validateSingleMode never rejects: it always returns a
    whitelist-respecting Response, preserves the message, only ever strips
    the question or filters the actions, and preserves the mode except in
    the one case of a Listening response carrying a question, which is
    promoted to Clarifying. -/
theorem C8_validate_strips_only (r : Response) :
    (validateSingleMode r).message = r.message
    ∧ respectsWhitelist (validateSingleMode r) = true
    ∧ ((validateSingleMode r).question = r.question
        ∨ (validateSingleMode r).question = none)
    ∧ (validateSingleMode r).actions.Sublist r.actions
    ∧ (¬(r.mode = "listening" ∧ jsTruthy r.question = true) →
        (validateSingleMode r).mode = r.mode) :=
  ⟨validate_message r, validate_respects r, validate_question r, validate_sublist r,
   fun h => validate_mode r h⟩

/-- C8 witness: a Stepping response with a question keeps its mode (and the
    offending question is stripped). -/
theorem C8_validate_strips_only_witness :
    ¬((⟨"stepping", Msg.text "m", some "q?", ["x"]⟩ : Response).mode = "listening"
        ∧ jsTruthy (⟨"stepping", Msg.text "m", some "q?", ["x"]⟩ : Response).question = true)
    ∧ (validateSingleMode ⟨"stepping", Msg.text "m", some "q?", ["x"]⟩).mode = "stepping" :=
  ⟨by decide,
   (C8_validate_strips_only ⟨"stepping", Msg.text "m", some "q?", ["x"]⟩).2.2.2.2 (by decide)⟩

/-- C9: for any non-empty input, any session state and any (possibly
    degraded or missing) RuleConfig, generateFrankResponse returns a
    Response whose mode lies in the closed mode set — every branch is
    total, no path escapes. -/
theorem C9_generate_total (cfg : Option FrankConfig) (st : ConvState)
    (input : String) (ctx : Option Breakdown) (h : input ≠ "") :
    (generateFrankResponse cfg st input ctx).1.mode ∈
      ["listening", "clarifying", "offering_direction", "calming", "stepping"] := by
  rcases (gfr_good cfg st input ctx).1 with h1 | h1 | h1 | h1 <;> simp [h1]

/-- C9 witness: a missing config still yields a well-formed Response. -/
theorem C9_generate_total_witness :
    ("hi" : String) ≠ ""
    ∧ (generateFrankResponse none {} "hi" none).1.mode ∈
      ["listening", "clarifying", "offering_direction", "calming", "stepping"] :=
  ⟨by decide, C9_generate_total none {} "hi" none (by decide)⟩

/-- C10: classifyInput only emits the six dispatched signal types, so the
    switch's default branch is dead and generateFrankResponse never
    returns a Listening response. -/
theorem C10_no_listening_response (cfg : Option FrankConfig) (st : ConvState)
    (input : String) (ctx : Option Breakdown) :
    (classifyInput cfg st input).type ∈
      ["overwhelmed", "intense_emotion", "ready_for_action", "request_to_shrink",
       "explanatory", "emotional"]
    ∧ (generateFrankResponse cfg st input ctx).1.mode ≠ "listening" := by
  refine ⟨classify_mem cfg st input, ?_⟩
  rcases (gfr_good cfg st input ctx).1 with h1 | h1 | h1 | h1 <;> simp [h1]

end TinySteps
